import Mathlib

/-!
Verification model of the QRSecure backend services (geolocation, URL
security validation, scan analytics, and the QR-link CRUD operations).

Each Python function is embedded as an executable Lean definition.
Network and database effects (the GeoLite2 reader, the ip-api.com fallback,
the Safe-Browsing API, the TLS handshake, WHOIS, the HEAD probe, the user
agent library) are supplied as explicit oracle values describing the outcome
of the call; the surrounding control flow, truthiness tests, dictionary
defaults and cache logic are translated faithfully from the source.
Functions additionally report which external lookups they performed, so that
short-circuiting claims can be stated.
-/

namespace QRSecure

/-- Model of a Python `datetime`: a calendar day (as an integer day number)
together with the seconds elapsed within that day.  Subtracting a
`timedelta(days = n)` keeps the time of day and moves the day number, and
`.date()` is the day component; `strftime "%Y-%m-%d"` is injective on dates,
so dates are keyed by their day number directly. -/
structure DT where
  day : Int
  sec : Nat
  deriving DecidableEq, Repr

/-- Python `datetime` comparison: lexicographic on (day, time of day). -/
def DT.le (a b : DT) : Prop := a.day < b.day ∨ (a.day = b.day ∧ a.sec ≤ b.sec)

instance (a b : DT) : Decidable (a.le b) := by
  unfold DT.le
  exact inferInstance

/-! ## Geolocation service (services/geolocation.py) -/

/-- Prefix list from `_is_private_ip` (services/geolocation.py lines 213-226). -/
def private_prefixes : List String :=
  ["10.",
   "172.16.", "172.17.", "172.18.", "172.19.",
   "172.20.", "172.21.", "172.22.", "172.23.",
   "172.24.", "172.25.", "172.26.", "172.27.",
   "172.28.", "172.29.", "172.30.", "172.31.",
   "192.168.",
   "127.",
   "0.",
   "::1",
   "fe80:",
   "fc00:",
   "fd00:"]

/-- Python `s.startswith(p)`, computed on the character lists. -/
def py_startswith (s p : String) : Bool := p.toList.isPrefixOf s.toList

/-- Embeds `_is_private_ip` (services/geolocation.py lines 209-232): a prefix
scan over `private_prefixes` followed by a membership test. -/
def is_private_ip (ip_address : String) : Bool :=
  private_prefixes.any (fun p => py_startswith ip_address p) ||
    (ip_address == "localhost" || ip_address == "::1" || ip_address == "0.0.0.0")

/-- Location record assembled by the geolocation lookups.  The five keys the
callers read (`country`, `country_code`, `city`, `latitude`, `longitude`) are
modelled, plus the `is_local` marker; enrichment-only keys (`region`,
`timezone`, `isp`, `postal_code`, `error`, `source`) are carried only as the
`source` tag where a claim needs to distinguish paths.  `Option` models a
value that is Python `None`.  Coordinates are carried opaquely as integers:
no claim computes with them. -/
structure LocRec where
  country : Option String
  country_code : Option String
  city : Option String
  latitude : Option Int
  longitude : Option Int
  is_local : Bool := false
  source : Option String := none
  deriving DecidableEq, Repr

/-- Python `x or d` for an optional string `x`: `None` and the empty string
are falsy. -/
def pyOrStr (v : Option String) (d : String) : String :=
  match v with
  | none => d
  | some s => if s.isEmpty then d else s

/-- Outcome of the GeoLite2 reader for the queried address: no database
configured (`_get_reader` returned `None`), the lookup raised, or a city
response carrying the fields read by `_lookup_geolite2`. -/
inductive GeoliteDb where
  | noReader : GeoliteDb
  | raises (msg : String) : GeoliteDb
  | city (country_name : Option String) (iso_code : Option String)
      (city_name : Option String) (lat lon : Option Int) : GeoliteDb
  deriving DecidableEq, Repr

/-- Embeds `_lookup_geolite2` (services/geolocation.py lines 99-138). -/
def lookup_geolite2 (db : GeoliteDb) (_ip_address : String) : LocRec :=
  match db with
  | .noReader =>
      { country := some "Unknown", country_code := none, city := some "Unknown",
        latitude := none, longitude := none, source := some "none" }
  | .raises _ =>
      { country := some "Unknown", country_code := none, city := some "Unknown",
        latitude := none, longitude := none, source := some "geolite2_error" }
  | .city cn iso ct lat lon =>
      { country := some (pyOrStr cn "Unknown"), country_code := iso,
        city := some (pyOrStr ct "Unknown"), latitude := lat, longitude := lon,
        source := some "geolite2" }

/-- Model of a field of a parsed JSON object: the key can be absent, present
with JSON `null`, or present with a value.  `dict.get(k, default)` returns
the default only when the key is absent. -/
inductive JField (α : Type) where
  | absent : JField α
  | null : JField α
  | val (a : α) : JField α
  deriving DecidableEq, Repr

/-- Python `data.get(k, d)` where `d` itself is an optional value
(`none` models a `None` default, i.e. plain `data.get(k)`). -/
def JField.getD (f : JField α) (d : Option α) : Option α :=
  match f with
  | .absent => d
  | .null => none
  | .val a => some a

/-- Fields of the ip-api.com JSON payload read by `_lookup_ip_api_sync`. -/
structure ApiData where
  status : JField String
  country : JField String
  countryCode : JField String
  city : JField String
  lat : JField Int
  lon : JField Int
  deriving DecidableEq, Repr

/-- Outcome of the `requests.get` call to ip-api.com: an exception
(connection error, timeout, bad JSON), or an HTTP response with a status
code and parsed payload. -/
inductive ApiOutcome where
  | raises (msg : String)
  | resp (status_code : Nat) (data : ApiData)
  deriving DecidableEq, Repr

/-- Record returned by `_lookup_ip_api_sync` on any non-success path
(services/geolocation.py lines 199-206). -/
def api_error_rec : LocRec :=
  { country := some "Unknown", country_code := none, city := some "Unknown",
    latitude := none, longitude := none, source := some "api_error" }

/-- Embeds `_lookup_ip_api_sync` (services/geolocation.py lines 175-206).
Note `data.get("country", "Unknown")` yields `None` when the payload carries
an explicit JSON `null`; the default applies only to an absent key. -/
def lookup_ip_api_sync (api : ApiOutcome) (_ip_address : String) : LocRec :=
  match api with
  | .raises _ => api_error_rec
  | .resp code data =>
      if code == 200 then
        if data.status.getD none == some "success" then
          { country := data.country.getD (some "Unknown"),
            country_code := data.countryCode.getD none,
            city := data.city.getD (some "Unknown"),
            latitude := data.lat.getD none,
            longitude := data.lon.getD none,
            source := some "ip-api.com" }
        else api_error_rec
      else api_error_rec

/-- External environment of a geolocation query: the GeoLite2 outcome and the
fallback API outcome for the queried address. -/
structure GeoEnv where
  geodb : GeoliteDb
  api : ApiOutcome
  deriving DecidableEq, Repr

/-- Fixed placeholder returned for private/loopback addresses
(services/geolocation.py lines 77-85). -/
def local_rec : LocRec :=
  { country := some "Local", country_code := some "XX", city := some "Local Network",
    latitude := none, longitude := none, is_local := true }

/-- Which external lookups a geolocation query performed. -/
structure GeoCalls where
  geolite_called : Bool
  api_called : Bool
  deriving DecidableEq, Repr

/-- Embeds `get_location_from_ip` (services/geolocation.py lines 71-96),
also reporting which lookups ran. -/
def get_location_from_ip (env : GeoEnv) (ip_address : String) : LocRec × GeoCalls :=
  if is_private_ip ip_address then
    (local_rec, ⟨false, false⟩)
  else
    let result := lookup_geolite2 env.geodb ip_address
    if result.country == some "Unknown" || result.country == none then
      let api_result := lookup_ip_api_sync env.api ip_address
      if api_result.country != some "Unknown" then (api_result, ⟨true, true⟩)
      else (result, ⟨true, true⟩)
    else (result, ⟨true, false⟩)

/-! ## Security service (services/security.py) -/

/-- Characters allowed in a URL scheme by CPython `urllib.parse`
(ASCII letters, digits, and the characters plus, minus, dot). -/
def scheme_char (c : Char) : Bool :=
  c.isAlpha || c.isDigit || c == '+' || c == '-' || c == '.'

/-- Scheme extraction of CPython `urlsplit`: the text before the first colon
is the scheme when it is non-empty, starts with an ASCII letter, and consists
of scheme characters only; it is lower-cased.  Otherwise the scheme is the
empty string and the input is left intact. -/
def splitScheme (url : List Char) : String × List Char :=
  match url.findIdx? (fun c => c == ':') with
  | none => ("", url)
  | some i =>
      if 0 < i then
        match url with
        | [] => ("", url)
        | c0 :: _ =>
            if c0.isAlpha && (url.take i).all scheme_char then
              (String.mk ((url.take i).map Char.toLower), url.drop (i + 1))
            else ("", url)
      else ("", url)

/-- Parsed URL components read by the security service. -/
structure ParsedUrl where
  scheme : String
  netloc : String
  deriving DecidableEq, Repr

/-- Embeds the scheme/netloc part of CPython `urlparse`: after scheme
removal, a rest beginning with two slashes has its netloc run to the next
slash, question mark or hash; a netloc with an unmatched square bracket
raises `ValueError` (Invalid IPv6 URL). -/
def pyUrlparse (url : String) : Except String ParsedUrl :=
  let (scheme, rest) := splitScheme url.toList
  let netloc : List Char :=
    match rest with
    | '/' :: '/' :: r => r.takeWhile (fun c => !(c == '/' || c == '?' || c == '#'))
    | _ => []
  if (netloc.contains '[' && !netloc.contains ']') ||
     (netloc.contains ']' && !netloc.contains '[') then
    .error "Invalid IPv6 URL"
  else
    .ok ⟨scheme, String.mk netloc⟩

/-- Result dictionary of `validate_url_format`. -/
structure FormatResult where
  is_valid : Bool
  reason : Option String
  deriving DecidableEq, Repr

/-- Suspicious substrings rejected by `validate_url_format`
(services/security.py lines 56-61). -/
def suspicious_patterns : List String :=
  ["javascript:", "data:", "vbscript:", "file://"]

/-- Python substring containment `needle in hay`. -/
def str_contains (hay needle : String) : Bool :=
  hay.toList.tails.any (fun t => needle.toList.isPrefixOf t)

/-- Python `str.lower()` (the URLs involved are ASCII). -/
def pyLower (s : String) : String := String.mk (s.toList.map Char.toLower)

/-- Embeds `validate_url_format` (services/security.py lines 36-69). -/
def validate_url_format (url : String) : FormatResult :=
  match pyUrlparse url with
  | .error e => ⟨false, some ("Invalid URL: " ++ e)⟩
  | .ok parsed =>
      if parsed.scheme.isEmpty then
        ⟨false, some "Missing URL scheme (http/https)"⟩
      else if !(parsed.scheme == "http" || parsed.scheme == "https") then
        ⟨false, some "Invalid scheme. Only http/https allowed"⟩
      else if parsed.netloc.isEmpty then
        ⟨false, some "Missing domain"⟩
      else
        match suspicious_patterns.find? (fun p => str_contains (pyLower url) p) with
        | some p => ⟨false, some ("Suspicious URL pattern detected: " ++ p)⟩
        | none => ⟨true, none⟩

/-- Result dictionary of `check_safe_browsing`. -/
structure SBResult where
  is_safe : Bool
  threats : List String
  note : Option String := none
  error : Option String := none
  deriving DecidableEq, Repr

/-- Entry of the module-level `_security_cache`; entries are written with
both the `safe_browsing` result and a `timestamp`. -/
structure CacheEntry where
  safe_browsing : SBResult
  timestamp : Int
  deriving DecidableEq, Repr

/-- The `_security_cache` dictionary, as an insertion-ordered association
list from cache key to entry. -/
abbrev Cache := List (String × CacheEntry)

/-- Embeds `_get_cache_key`: the MD5 hex digest of the URL, modelled as an
injective keying function (the identity suffices for every property proved
here). -/
def get_cache_key (url : String) : String := url

/-- Embeds `_is_cache_valid` (services/security.py lines 31-33) with the
current `time.time()` passed explicitly (integer seconds). -/
def is_cache_valid (entry : CacheEntry) (now : Int) : Bool :=
  now - entry.timestamp < 3600

/-- Dictionary lookup in the cache. -/
def cache_lookup (c : Cache) (k : String) : Option CacheEntry :=
  (c.find? (fun p => p.1 == k)).map (fun p => p.2)

/-- Dictionary assignment in the cache: replace in place when the key
exists, append otherwise. -/
def cache_insert (c : Cache) (k : String) (e : CacheEntry) : Cache :=
  if c.any (fun p => p.1 == k) then
    c.map (fun p => if p.1 == k then (k, e) else p)
  else c ++ [(k, e)]

/-- Outcome of the Safe-Browsing POST request: an exception, or an HTTP
response carrying the status code and the list of threat types found in the
`matches` array (empty when the key is absent or the array empty). -/
inductive SBApi where
  | raises (msg : String)
  | resp (status_code : Nat) (matchTypes : List String)
  deriving DecidableEq, Repr

/-- Output of `check_safe_browsing`: the result dictionary, the cache after
the call, and whether the remote API was queried. -/
structure SBOutput where
  result : SBResult
  cache : Cache
  api_called : Bool
  deriving DecidableEq, Repr

/-- Fresh-lookup path of `check_safe_browsing` (services/security.py lines
138-186): query the API; on HTTP 200 derive the verdict from the matches and
store it in the cache with the current timestamp; on a non-200 status or an
exception return a permissive default without touching the cache. -/
def check_sb_fresh (cache : Cache) (now : Int) (api : SBApi) (cache_key : String) :
    SBOutput :=
  match api with
  | .raises msg =>
      ⟨{ is_safe := true, threats := [], error := some msg }, cache, true⟩
  | .resp code matchTypes =>
      if code != 200 then
        ⟨{ is_safe := true, threats := [], error := some ("API error: " ++ toString code) },
          cache, true⟩
      else
        let result : SBResult :=
          if matchTypes.length > 0 then { is_safe := false, threats := matchTypes }
          else { is_safe := true, threats := [] }
        ⟨result, cache_insert cache cache_key { safe_browsing := result, timestamp := now },
          true⟩

/-- Embeds `check_safe_browsing` (services/security.py lines 119-186):
unconfigured returns a permissive note; a cached entry passing
`_is_cache_valid` is returned as-is; otherwise the fresh path runs. -/
def check_safe_browsing (configured : Bool) (cache : Cache) (now : Int) (api : SBApi)
    (url : String) : SBOutput :=
  if !configured then
    ⟨{ is_safe := true, threats := [],
       note := some "Safe Browsing API not configured" }, cache, false⟩
  else
    let cache_key := get_cache_key url
    match cache_lookup cache cache_key with
    | some entry =>
        if is_cache_valid entry now then ⟨entry.safe_browsing, cache, false⟩
        else check_sb_fresh cache now api cache_key
    | none => check_sb_fresh cache now api cache_key

/-- Fields of the `check_ssl_certificate` result dictionary read by
`validate_url`: `has_ssl` is present on every path; `is_valid` is absent on
the timeout / resolution-failure / generic-exception paths. -/
structure SSLInfo where
  has_ssl : Bool
  is_valid : Option Bool := none
  deriving DecidableEq, Repr

/-- Outcome of the TLS handshake performed by `check_ssl_certificate`:
a certificate was obtained (with the computed expiry validity), verification
failed, or the connection failed (timeout, resolution failure, other
exception). -/
inductive SSLNet where
  | cert (is_valid : Bool)
  | verifyError
  | connError
  deriving DecidableEq, Repr

/-- Embeds `check_ssl_certificate` (services/security.py lines 189-255),
restricted to the fields `validate_url` reads.  A non-https URL short-circuits
without a handshake; `validate_url` only calls this after format validation,
so the parse cannot fail here. -/
def check_ssl_certificate (net : SSLNet) (url : String) : SSLInfo :=
  let scheme := match pyUrlparse url with
    | .ok p => p.scheme
    | .error _ => ""
  if scheme != "https" then ⟨false, none⟩
  else
    match net with
    | .cert v => ⟨true, some v⟩
    | .verifyError => ⟨true, some false⟩
    | .connError => ⟨false, none⟩

/-- Fields of the `check_domain_age` result dictionary read by
`validate_url`; both keys are absent on the no-creation-date and exception
paths. -/
structure DomainAgeInfo where
  is_new : Option Bool := none
  is_suspicious : Option Bool := none
  deriving DecidableEq, Repr

/-- Outcome of the WHOIS lookup: a creation date yielding the given age in
days, no creation date, or an exception. -/
inductive WhoisNet where
  | created (age_days : Int)
  | noDate
  | raises (msg : String)
  deriving DecidableEq, Repr

/-- Embeds `check_domain_age` (services/security.py lines 258-305), restricted
to the fields `validate_url` reads: a known creation date sets
`is_new = age < 30` and `is_suspicious = age < 7`; otherwise both keys are
absent. -/
def check_domain_age (net : WhoisNet) (_url : String) : DomainAgeInfo :=
  match net with
  | .created age => ⟨some (age < 30), some (age < 7)⟩
  | .noDate => ⟨none, none⟩
  | .raises _ => ⟨none, none⟩

/-- Fields of the `check_url_reachable` result dictionary read by
`validate_url`; the `error` key is present on every path and is Python `None`
on the response path. -/
structure ReachInfo where
  is_reachable : Bool
  error : Option String
  deriving DecidableEq, Repr

/-- Outcome of the HEAD probe: a response with a status code, or one of the
caught exception classes. -/
inductive ReachNet where
  | resp (status_code : Nat)
  | timeout
  | sslError
  | connError
  | raises (msg : String)
  deriving DecidableEq, Repr

/-- Embeds `check_url_reachable` (services/security.py lines 72-116),
restricted to the fields `validate_url` reads. -/
def check_url_reachable (net : ReachNet) (_url : String) : ReachInfo :=
  match net with
  | .resp s => ⟨s < 400, none⟩
  | .timeout => ⟨false, some "Connection timeout"⟩
  | .sslError => ⟨false, some "SSL certificate error"⟩
  | .connError => ⟨false, some "Could not connect to server"⟩
  | .raises m => ⟨false, some m⟩

/-- External environment of one `validate_url` run: the Safe-Browsing
configuration flag, the module cache, the clock, and the outcome of each
network interaction. -/
structure VEnv where
  sb_configured : Bool
  cache : Cache
  now : Int
  sb_api : SBApi
  ssl_net : SSLNet
  whois_net : WhoisNet
  reach_net : ReachNet
  deriving DecidableEq, Repr

/-- Result dictionary of `validate_url`: verdict, warnings, errors, and the
per-check detail entries (absent when the early format return skipped the
check). -/
structure VResult where
  is_safe : Bool
  warnings : List String
  errors : List String
  fmt : FormatResult
  sb : Option SBResult := none
  ssl : Option SSLInfo := none
  domain_age : Option DomainAgeInfo := none
  reachability : Option ReachInfo := none
  deriving DecidableEq, Repr

/-- Which of the four post-format checks a `validate_url` run performed. -/
structure VCalls where
  sb : Bool
  ssl : Bool
  whois : Bool
  reach : Bool
  deriving DecidableEq, Repr

/-- Embeds `validate_url` (services/security.py lines 308-370): format
validation with early unsafe return; Safe-Browsing check, which alone can
also flip `is_safe` to false; TLS, domain-age and optional reachability
checks, which only append warnings.  Returns the result dictionary, the
cache after the run, and the performed-check flags. -/
def validate_url (env : VEnv) (url : String) (check_reachability : Bool) :
    VResult × Cache × VCalls :=
  let format_check := validate_url_format url
  if !format_check.is_valid then
    ({ is_safe := false, warnings := [], errors := [format_check.reason.getD ""],
       fmt := format_check }, env.cache, ⟨false, false, false, false⟩)
  else
    let sbo := check_safe_browsing env.sb_configured env.cache env.now env.sb_api url
    let errors₁ : List String :=
      if !sbo.result.is_safe then
        ["Flagged as malicious: " ++ String.intercalate ", " sbo.result.threats]
      else []
    let ssl_check := check_ssl_certificate env.ssl_net url
    let w_ssl : List String :=
      if !ssl_check.has_ssl then ["No HTTPS (connection not encrypted)"]
      else if !(ssl_check.is_valid.getD true) then ["SSL certificate issue detected"]
      else []
    let domain_age := check_domain_age env.whois_net url
    let w_da : List String :=
      if domain_age.is_suspicious.getD false then ["Domain registered less than 7 days ago"]
      else if domain_age.is_new.getD false then ["Domain registered less than 30 days ago"]
      else []
    if check_reachability then
      let reachable := check_url_reachable env.reach_net url
      let w_r : List String :=
        if !reachable.is_reachable then
          ["URL may not be reachable: " ++ reachable.error.getD "None"]
        else []
      ({ is_safe := sbo.result.is_safe, warnings := w_ssl ++ w_da ++ w_r,
         errors := errors₁, fmt := format_check, sb := some sbo.result,
         ssl := some ssl_check, domain_age := some domain_age,
         reachability := some reachable }, sbo.cache, ⟨true, true, true, true⟩)
    else
      ({ is_safe := sbo.result.is_safe, warnings := w_ssl ++ w_da,
         errors := errors₁, fmt := format_check, sb := some sbo.result,
         ssl := some ssl_check, domain_age := some domain_age }, sbo.cache,
        ⟨true, true, true, false⟩)

/-- Decidable form of the hypothesis of claim C5: the URL parses with a
scheme other than http or https, or fails to parse at all. -/
def scheme_not_http (url : String) : Bool :=
  match pyUrlparse url with
  | .ok p => !(p.scheme == "http") && !(p.scheme == "https")
  | .error _ => true

/-! ## Analytics service (services/analytics.py) -/

/-- Fields of a loaded `Scan` row read by the aggregation loops of
`get_analytics_summary`; `Option` models nullable columns, and the Python
truthiness tests treat `None` and the empty string alike. -/
structure AScan where
  country : Option String := none
  city : Option String := none
  device_type : Option String := none
  browser : Option String := none
  os : Option String := none
  deriving DecidableEq, Repr

/-- Python truthiness of an optional string: `None` and `""` are falsy. -/
def pyTruthy (v : Option String) : Bool :=
  match v with
  | none => false
  | some s => !s.isEmpty

/-- One `defaultdict(int)` increment `m[k] += 1` on an insertion-ordered
association list: bump an existing key in place, or append a fresh key with
count 1. -/
def bump (m : List (String × Nat)) (k : String) : List (String × Nat) :=
  match m with
  | [] => [(k, 1)]
  | (k₂, n) :: rest => if k₂ == k then (k₂, n + 1) :: rest else (k₂, n) :: bump rest k

/-- Counting dictionary built by iterating `m[k] += 1` over a key sequence;
`.items()` of the resulting dict lists keys in first-encountered order. -/
def counts_of (keys : List String) : List (String × Nat) := keys.foldl bump []

/-- Dictionary read `m.get(k, 0)` on a counting association list. -/
def count_lookup (m : List (String × Nat)) (k : String) : Nat :=
  (((m.find? (fun p => p.1 == k)).map (fun p => p.2)).getD 0)

/-- Key sequence of the `locations` dictionary (services/analytics.py lines
138-142): the city-comma-country label of each scan whose city and country
are both truthy, in scan order. -/
def location_keys (scans : List AScan) : List String :=
  scans.filterMap (fun s =>
    if pyTruthy s.city && pyTruthy s.country then
      some ((s.city.getD "") ++ ", " ++ (s.country.getD ""))
    else none)

/-- Key sequence of the `countries` dictionary (services/analytics.py lines
139-140). -/
def country_keys (scans : List AScan) : List String :=
  scans.filterMap (fun s => if pyTruthy s.country then s.country else none)

/-- Stable insertion of one element into a list sorted by descending count:
the element goes after every earlier element whose count is greater than or
equal to its own. -/
def insert_desc (x : String × Nat) : List (String × Nat) → List (String × Nat)
  | [] => [x]
  | y :: ys => if y.2 < x.2 then x :: y :: ys else y :: insert_desc x ys

/-- Python `sorted(items, key = count, reverse = True)`: a stable sort by
descending count, modelled as left-to-right stable insertion. -/
def py_sorted_desc (l : List (String × Nat)) : List (String × Nat) :=
  l.foldl (fun acc x => insert_desc x acc) []

/-- Embeds the `top_locations` computation (services/analytics.py lines
136-144). -/
def top_locations (scans : List AScan) : List (String × Nat) :=
  (py_sorted_desc (counts_of (location_keys scans))).take 10

/-- Embeds the `top_countries` computation (services/analytics.py lines
137-145). -/
def top_countries (scans : List AScan) : List (String × Nat) :=
  (py_sorted_desc (counts_of (country_keys scans))).take 10

/-- Single pass splitting a character list on whitespace runs, carrying the
reversed current word; emits each maximal non-whitespace run. -/
def ws_words_aux : List Char → List Char → List (List Char)
  | [], acc => if acc.isEmpty then [] else [acc.reverse]
  | c :: rest, acc =>
      if c.isWhitespace then
        if acc.isEmpty then ws_words_aux rest []
        else acc.reverse :: ws_words_aux rest []
      else ws_words_aux rest (c :: acc)

/-- Whitespace-run splitting of a character list into its words. -/
def ws_words (l : List Char) : List (List Char) := ws_words_aux l []

/-- Python `str.split()` with no argument: split on whitespace runs,
discarding empty pieces (the strings involved use ASCII whitespace). -/
def py_split_ws (s : String) : List String :=
  (ws_words s.toList).map (fun w => String.mk w)

/-- First whitespace-delimited token of a string, when one exists; Python
`s.split()[0]` raises `IndexError` in the `none` case. -/
def first_token (s : String) : Option String := (py_split_ws s).head?

/-- Loop body shared by the browser and OS grouping loops
(services/analytics.py lines 153-166): a scan whose field is truthy bumps
the count of the first whitespace token of the field; a truthy field with no
token makes `split()[0]` raise `IndexError`; a falsy field is skipped. -/
def field_step (get : AScan → Option String) (m : List (String × Nat)) (s : AScan) :
    Except String (List (String × Nat)) :=
  if pyTruthy (get s) then
    match first_token ((get s).getD "") with
    | some t => Except.ok (bump m t)
    | none => Except.error "IndexError: list index out of range"
  else Except.ok m

/-- Shared shape of the browser and OS grouping loops: iterate `field_step`
over the loaded scans, starting from an empty dictionary. -/
def field_counts (get : AScan → Option String) (scans : List AScan) :
    Except String (List (String × Nat)) :=
  scans.foldlM (field_step get) []

/-- Embeds the `browsers` grouping (services/analytics.py lines 153-159). -/
def browser_counts (scans : List AScan) : Except String (List (String × Nat)) :=
  field_counts (fun s => s.browser) scans

/-- Embeds the `operating_systems` grouping (services/analytics.py lines
161-166). -/
def os_counts (scans : List AScan) : Except String (List (String × Nat)) :=
  field_counts (fun s => s.os) scans

/-- Zero-filling loop shared by `get_analytics_summary` and
`get_scans_timeline`: one entry per day from `current` through `today`
inclusive, each looked up in the per-day counting dictionary with default
0. -/
def fill_timeline (tl : Int → Nat) (current today : Int) : List (Int × Nat) :=
  if current ≤ today then (current, tl current) :: fill_timeline tl (current + 1) today
  else []
termination_by (today + 1 - current).toNat
decreasing_by
  omega

/-- Embeds `get_scans_timeline` (services/analytics.py lines 232-267) over
the loaded scan timestamps: count scans per calendar date, then zero-fill
from the cutoff date (today minus the day window, since subtracting a whole
number of days keeps the time of day) through today. -/
def get_scans_timeline (scans : List DT) (now : DT) (days : Nat) : List (Int × Nat) :=
  let cutoff : DT := ⟨now.day - (days : Int), now.sec⟩
  let timeline : Int → Nat := fun d => scans.countP (fun s => s.day == d)
  fill_timeline timeline cutoff.day now.day

/-! ## Persistent rows and the scan/delete operations
(models.py, services/analytics.py `log_scan`, routes/qr.py `delete_qr_code`) -/

/-- Row of the `urls` table (models.py class URL), with the columns the
verified operations read or write. -/
structure URLRow where
  url_id : String
  user_id : Option String := none
  short_code : String
  original_url : String
  custom_title : Option String := none
  is_active : Bool := true
  show_preview : Bool := true
  analytics_enabled : Bool := true
  password_hash : Option String := none
  expiration_date : Option DT := none
  qr_color : String := "#000000"
  qr_background : String := "#FFFFFF"
  total_scans : Nat := 0
  created_at : DT := ⟨0, 0⟩
  updated_at : DT := ⟨0, 0⟩
  deriving DecidableEq, Repr

/-- Row of the `scans` table (models.py class Scan). -/
structure ScanRow where
  url_id : String
  scanned_at : DT
  ip_address : String
  country : Option String := none
  country_code : Option String := none
  city : Option String := none
  latitude : Option Int := none
  longitude : Option Int := none
  device_type : Option String := none
  os : Option String := none
  browser : Option String := none
  user_agent : Option String := none
  referrer : Option String := none
  deriving DecidableEq, Repr

/-- Committed database state visible to other requests: the `urls` and
`scans` tables.  A transaction is a single transition on this state, so a
partially applied transaction is never observable. -/
structure DBState where
  urls : List URLRow
  scans : List ScanRow
  deriving DecidableEq, Repr

/-- Fields of the parsed user agent read by `log_scan`. -/
structure UAInfo where
  is_mobile : Bool := false
  is_tablet : Bool := false
  is_pc : Bool := false
  is_bot : Bool := false
  device_family : Option String := none
  os_family : String := ""
  os_version_string : String := ""
  browser_family : String := ""
  browser_version_string : String := ""
  deriving DecidableEq, Repr

/-- Outcome of `user_agents.parse` on the raw user-agent string. -/
inductive UAOutcome where
  | raises (msg : String)
  | parsed (ua : UAInfo)
  deriving DecidableEq, Repr

/-- Embeds the user-agent classification of `log_scan`
(services/analytics.py lines 38-69): a falsy user agent or a parse exception
leaves all three labels Unknown; otherwise the device category comes from
the flag cascade and the OS/browser labels join family and version. -/
def classify_ua (user_agent : String) (o : UAOutcome) : String × String × String :=
  if user_agent.isEmpty then ("Unknown", "Unknown", "Unknown")
  else
    match o with
    | .raises _ => ("Unknown", "Unknown", "Unknown")
    | .parsed ua =>
        let device_type :=
          if ua.is_mobile then "Mobile"
          else if ua.is_tablet then "Tablet"
          else if ua.is_pc then "Desktop"
          else if ua.is_bot then "Bot"
          else pyOrStr ua.device_family "Unknown"
        let os_name :=
          if ua.os_version_string.isEmpty then ua.os_family
          else ua.os_family ++ " " ++ ua.os_version_string
        let browser_name :=
          if ua.browser_version_string.isEmpty then ua.browser_family
          else ua.browser_family ++ " " ++ ua.browser_version_string
        (device_type, os_name, browser_name)

/-- Embeds `log_scan` (services/analytics.py lines 18-101): classify the
client, resolve the location, build the scan row, and commit the row append
together with the parent counter increment in one transaction.  A missing
parent URL still appends the row; `scalar_one_or_none` raises when the
filter matches more than one row, in which case nothing is committed. -/
def log_scan (st : DBState) (url_id ip_address user_agent : String)
    (referrer : Option String) (now : DT) (ua : UAOutcome) (geo : GeoEnv) :
    Except String (DBState × ScanRow) :=
  let c := classify_ua user_agent ua
  let location := (get_location_from_ip geo ip_address).1
  let scan : ScanRow :=
    { url_id := url_id, scanned_at := now, ip_address := ip_address,
      country := location.country, country_code := location.country_code,
      city := location.city, latitude := location.latitude,
      longitude := location.longitude, device_type := some c.1,
      os := some c.2.1, browser := some c.2.2,
      user_agent := some user_agent, referrer := referrer }
  match st.urls.filter (fun u => u.url_id == url_id) with
  | [] => .ok ({ urls := st.urls, scans := st.scans ++ [scan] }, scan)
  | [_] =>
      .ok ({ urls := st.urls.map (fun u =>
               if u.url_id == url_id then { u with total_scans := u.total_scans + 1 }
               else u),
             scans := st.scans ++ [scan] }, scan)
  | _ => .error "MultipleResultsFound"

/-- Embeds `delete_qr_code` (routes/qr.py lines 318-341): look up the URL by
short code and owner; absent gives a 404; otherwise flip `is_active` off,
refresh `updated_at`, and commit.  `scalar_one_or_none` raises on more than
one match, in which case nothing is committed (error code 500). -/
def delete_qr_code (st : DBState) (short_code user_id : String) (now : DT) :
    Except Nat DBState :=
  match st.urls.filter (fun u => u.short_code == short_code && u.user_id == some user_id) with
  | [] => .error 404
  | [_] =>
      .ok { st with urls := st.urls.map (fun u =>
              if u.short_code == short_code && u.user_id == some user_id then
                { u with is_active := false, updated_at := now }
              else u) }
  | _ => .error 500

/-- Concrete link row used by the operation witnesses. -/
def demo_url : URLRow :=
  { url_id := "u1", user_id := some "owner", short_code := "abc123",
    original_url := "http://a.com" }

/-- Concrete one-link database with no recorded scans, used by the operation
witnesses. -/
def demo_db : DBState := { urls := [demo_url], scans := [] }

/-! ## Theorems -/

/-- C2: for every input string carrying a private/loopback prefix,
`get_location_from_ip` returns the fixed Local placeholder (country
"Local", country code "XX", city "Local Network", null coordinates) and
performs neither the GeoLite2 lookup nor the remote API lookup. -/
theorem claim_c2 (env : GeoEnv) (ip : String)
    (h : private_prefixes.any (fun p => py_startswith ip p) = true) :
    get_location_from_ip env ip = (local_rec, ⟨false, false⟩) ∧
    local_rec.country = some "Local" ∧ local_rec.country_code = some "XX" ∧
    local_rec.city = some "Local Network" ∧ local_rec.latitude = none ∧
    local_rec.longitude = none := by
  have hp : is_private_ip ip = true := by
    unfold is_private_ip
    rw [h]
    rfl
  exact ⟨by simp [get_location_from_ip, hp], rfl, rfl, rfl, rfl, rfl⟩

/-- Witness for C2 at the concrete address 192.168.1.5 with both external
services down. -/
theorem claim_c2_witness :
    (private_prefixes.any (fun p => py_startswith "192.168.1.5" p) = true) ∧
    (get_location_from_ip ⟨.noReader, .raises "down"⟩ "192.168.1.5" =
        (local_rec, ⟨false, false⟩) ∧
      local_rec.country = some "Local" ∧ local_rec.country_code = some "XX" ∧
      local_rec.city = some "Local Network" ∧ local_rec.latitude = none ∧
      local_rec.longitude = none) :=
  ⟨by decide, claim_c2 ⟨.noReader, .raises "down"⟩ "192.168.1.5" (by decide)⟩

/-- C10, counterexample to the claim as stated: when the GeoLite2 database
is missing and the fallback API answers success with an explicit JSON null
`country` value, `get_location_from_ip` passes the null through — the
`dict.get` default only covers an absent key — so `country` is not a
non-null string on this path. -/
theorem claim_c10_counterexample :
    (get_location_from_ip
        ⟨.noReader, .resp 200 ⟨.val "success", .null, .absent, .val "Mountain View",
          .absent, .absent⟩⟩ "8.8.8.8").1.country = none := by
  decide

/-- C10 as amended: `get_location_from_ip` is total and always yields a
record with the country, country code, city, latitude and longitude keys;
`country` and `city` are non-null strings on every path — database missing,
lookup error, API error included — provided the fallback API success payload
does not carry an explicit JSON null for `country` or `city`. -/
theorem claim_c10 (env : GeoEnv) (ip : String)
    (h : ∀ code data, env.api = ApiOutcome.resp code data →
      data.country ≠ JField.null ∧ data.city ≠ JField.null) :
    ((get_location_from_ip env ip).1.country.isSome = true) ∧
    ((get_location_from_ip env ip).1.city.isSome = true) := by
  unfold get_location_from_ip
  by_cases hp : is_private_ip ip
  · simp [hp, local_rec]
  · simp only [hp, Bool.false_eq_true, if_false]
    have hgeo : (lookup_geolite2 env.geodb ip).country.isSome = true ∧
        (lookup_geolite2 env.geodb ip).city.isSome = true := by
      cases env.geodb <;> simp [lookup_geolite2]
    have hapi : (lookup_ip_api_sync env.api ip).country.isSome = true ∧
        (lookup_ip_api_sync env.api ip).city.isSome = true := by
      cases henv : env.api with
      | raises m => simp [lookup_ip_api_sync, api_error_rec]
      | resp code data =>
          obtain ⟨hc, hcity⟩ := h code data henv
          unfold lookup_ip_api_sync
          by_cases h200 : code == 200
          · simp only [h200, if_true]
            by_cases hst : data.status.getD none == some "success"
            · simp only [hst, if_true]
              constructor
              · cases hdc : data.country
                · simp [JField.getD]
                · exact absurd hdc hc
                · simp [JField.getD]
              · cases hdc : data.city
                · simp [JField.getD]
                · exact absurd hdc hcity
                · simp [JField.getD]
            · simp [hst, api_error_rec]
          · simp [h200, api_error_rec]
    by_cases hu : ((lookup_geolite2 env.geodb ip).country == some "Unknown" ||
        (lookup_geolite2 env.geodb ip).country == none)
    · simp only [hu, if_true]
      by_cases hau : (lookup_ip_api_sync env.api ip).country != some "Unknown"
      · simp [hau, hapi]
      · simp [hau, hgeo]
    · simp [hu, hgeo]

/-- Witness for C10 at a public address with both lookups failing. -/
theorem claim_c10_witness :
    ((get_location_from_ip ⟨.raises "lookup failed", .raises "down"⟩
        "8.8.8.8").1.country.isSome = true) ∧
    ((get_location_from_ip ⟨.raises "lookup failed", .raises "down"⟩
        "8.8.8.8").1.city.isSome = true) :=
  claim_c10 ⟨.raises "lookup failed", .raises "down"⟩ "8.8.8.8"
    (fun _ _ hd => ApiOutcome.noConfusion hd)

/-- C5: a URL whose scheme is not http or https is rejected at the format
stage — `validate_url` marks it unsafe with a format error and performs none
of the threat-list, TLS, domain-age or reachability checks, whatever those
checks would have returned. -/
theorem claim_c5 (env : VEnv) (url : String) (b : Bool)
    (h : scheme_not_http url = true) :
    (validate_url env url b).1.is_safe = false ∧
    (validate_url env url b).1.fmt.is_valid = false ∧
    (validate_url env url b).1.errors ≠ [] ∧
    (validate_url env url b).2.2 = ⟨false, false, false, false⟩ ∧
    (validate_url env url b).1.sb = none ∧
    (validate_url env url b).1.ssl = none ∧
    (validate_url env url b).1.domain_age = none ∧
    (validate_url env url b).1.reachability = none := by
  have hf : (validate_url_format url).is_valid = false := by
    unfold scheme_not_http at h
    unfold validate_url_format
    cases hu : pyUrlparse url with
    | error e => simp
    | ok p =>
        rw [hu] at h
        simp only [Bool.and_eq_true, Bool.not_eq_true'] at h
        by_cases he : p.scheme.isEmpty
        · simp [he]
        · simp [he, h.1, h.2]
  simp [validate_url, hf]

/-- Witness for C5 at the concrete URL javascript:alert(1), in an
environment where every other check would have passed. -/
theorem claim_c5_witness :
    (scheme_not_http "javascript:alert(1)" = true) ∧
    ((validate_url ⟨true, [], 0, .resp 200 [], .cert true, .created 100, .resp 200⟩
        "javascript:alert(1)" true).1.is_safe = false ∧
      (validate_url ⟨true, [], 0, .resp 200 [], .cert true, .created 100, .resp 200⟩
        "javascript:alert(1)" true).1.fmt.is_valid = false ∧
      (validate_url ⟨true, [], 0, .resp 200 [], .cert true, .created 100, .resp 200⟩
        "javascript:alert(1)" true).1.errors ≠ [] ∧
      (validate_url ⟨true, [], 0, .resp 200 [], .cert true, .created 100, .resp 200⟩
        "javascript:alert(1)" true).2.2 = ⟨false, false, false, false⟩ ∧
      (validate_url ⟨true, [], 0, .resp 200 [], .cert true, .created 100, .resp 200⟩
        "javascript:alert(1)" true).1.sb = none ∧
      (validate_url ⟨true, [], 0, .resp 200 [], .cert true, .created 100, .resp 200⟩
        "javascript:alert(1)" true).1.ssl = none ∧
      (validate_url ⟨true, [], 0, .resp 200 [], .cert true, .created 100, .resp 200⟩
        "javascript:alert(1)" true).1.domain_age = none ∧
      (validate_url ⟨true, [], 0, .resp 200 [], .cert true, .created 100, .resp 200⟩
        "javascript:alert(1)" true).1.reachability = none) :=
  ⟨by decide,
   claim_c5 ⟨true, [], 0, .resp 200 [], .cert true, .created 100, .resp 200⟩
     "javascript:alert(1)" true (by decide)⟩

/-- C1: the combined validator returns an unsafe verdict only when the
format check reported the URL invalid or the Safe-Browsing detail it stored
reported a match; the TLS, domain-age and reachability checks never flip
`is_safe` to false. -/
theorem claim_c1 (env : VEnv) (url : String) (b : Bool)
    (h : (validate_url env url b).1.is_safe = false) :
    (validate_url env url b).1.fmt.is_valid = false ∨
    ∃ s, (validate_url env url b).1.sb = some s ∧ s.is_safe = false := by
  by_cases hf : (validate_url_format url).is_valid
  · right
    refine ⟨(check_safe_browsing env.sb_configured env.cache env.now env.sb_api url).result,
      ?_, ?_⟩
    · unfold validate_url
      simp only [hf, Bool.not_true, Bool.false_eq_true, if_false]
      cases b <;> simp
    · unfold validate_url at h
      simp only [hf, Bool.not_true, Bool.false_eq_true, if_false] at h
      cases b <;> simpa using h
  · left
    have hf2 : (validate_url_format url).is_valid = false := by
      simpa using hf
    simp [validate_url, hf2]

/-- Witness for C1: a well-formed URL flagged by the threat list makes the
verdict unsafe, and the theorem locates the cause in the Safe-Browsing
detail. -/
theorem claim_c1_witness :
    (validate_url ⟨true, [], 0, .resp 200 ["MALWARE"], .cert true, .created 100, .resp 200⟩
        "http://e.com" true).1.fmt.is_valid = false ∨
    ∃ s, (validate_url ⟨true, [], 0, .resp 200 ["MALWARE"], .cert true, .created 100,
        .resp 200⟩ "http://e.com" true).1.sb = some s ∧ s.is_safe = false :=
  claim_c1 ⟨true, [], 0, .resp 200 ["MALWARE"], .cert true, .created 100, .resp 200⟩
    "http://e.com" true (by decide)

/-- Looking up the key just written by a dictionary assignment yields the
written entry. -/
theorem cache_lookup_insert (c : Cache) (k : String) (e : CacheEntry) :
    cache_lookup (cache_insert c k e) k = some e := by
  have hmap : ∀ (c₀ : Cache), c₀.any (fun p => p.1 == k) = true →
      (c₀.map (fun p => if p.1 == k then (k, e) else p)).find? (fun p => p.1 == k) =
        some (k, e) := by
    intro c₀ hc
    induction c₀ with
    | nil => simp at hc
    | cons p rest ih =>
        by_cases hp : (p.1 == k) = true
        · rw [List.map_cons, if_pos hp]
          exact List.find?_cons_of_pos _ (beq_self_eq_true k)
        · simp only [List.any_cons, Bool.or_eq_true] at hc
          rw [List.map_cons, if_neg hp,
            List.find?_cons_of_neg (p := fun q => q.1 == k) (a := p) _ hp]
          exact ih (hc.resolve_left hp)
  have happ : ∀ (c₀ : Cache), c₀.any (fun p => p.1 == k) = false →
      (c₀ ++ [(k, e)]).find? (fun p => p.1 == k) = some (k, e) := by
    intro c₀ hc
    induction c₀ with
    | nil => exact List.find?_cons_of_pos _ (beq_self_eq_true k)
    | cons p rest ih =>
        simp only [List.any_cons, Bool.or_eq_false_iff] at hc
        rw [List.cons_append,
          List.find?_cons_of_neg (p := fun q => q.1 == k) (a := p) _
            (by simp [hc.1] : ¬(p.1 == k) = true)]
        exact ih hc.2
  unfold cache_insert cache_lookup
  by_cases hc : c.any (fun p => p.1 == k)
  · rw [if_pos hc, hmap c hc]
    rfl
  · have hc2 : c.any (fun p => p.1 == k) = false := Bool.eq_false_iff.mpr hc
    rw [if_neg hc, happ c hc2]
    rfl

/-- C6 as amended: with the API configured, a cache entry whose timestamp is
more than one hour (3600 seconds) old is never served — the call behaves
exactly like the fresh-lookup path, querying the remote API; when that query
succeeds (HTTP 200) its result is stored under the URL key with the current
timestamp, while an API exception or a non-200 status leaves the cache
unchanged (the stale entry is not refreshed, but not served either). -/
theorem claim_c6 (cache : Cache) (now : Int) (api : SBApi) (url : String)
    (e : CacheEntry)
    (h1 : cache_lookup cache (get_cache_key url) = some e)
    (h2 : now - e.timestamp > 3600) :
    check_safe_browsing true cache now api url =
      check_sb_fresh cache now api (get_cache_key url) ∧
    (check_safe_browsing true cache now api url).api_called = true ∧
    (∀ ts, api = SBApi.resp 200 ts →
      cache_lookup (check_safe_browsing true cache now api url).cache (get_cache_key url) =
        some { safe_browsing := (check_safe_browsing true cache now api url).result,
               timestamp := now }) ∧
    (∀ msg, api = SBApi.raises msg →
      (check_safe_browsing true cache now api url).cache = cache) ∧
    (∀ code ts, api = SBApi.resp code ts → code ≠ 200 →
      (check_safe_browsing true cache now api url).cache = cache) := by
  have hvalid : is_cache_valid e now = false := by
    simp only [is_cache_valid, decide_eq_false_iff_not, not_lt]
    omega
  have hmain : check_safe_browsing true cache now api url =
      check_sb_fresh cache now api (get_cache_key url) := by
    unfold check_safe_browsing
    simp [h1, hvalid]
  refine ⟨hmain, ?_, ?_, ?_, ?_⟩
  · rw [hmain]
    cases api with
    | raises m => rfl
    | resp code ts =>
        unfold check_sb_fresh
        by_cases hc : code != 200
        · simp [hc]
        · simp [hc]
  · intro ts hts
    subst hts
    rw [hmain]
    simp only [check_sb_fresh]
    have h200 : ((200 : Nat) != 200) = false := by decide
    rw [h200]
    simp only [Bool.false_eq_true, if_false]
    exact cache_lookup_insert cache (get_cache_key url) _
  · intro msg hmsg
    subst hmsg
    rw [hmain]
    rfl
  · intro code ts hts hcode
    subst hts
    rw [hmain]
    unfold check_sb_fresh
    have : (code != 200) = true := by
      simpa using hcode
    simp [this]

/-- Witness for C6: a concrete two-hour-old entry, refreshed by a successful
match response. -/
theorem claim_c6_witness :
    (cache_lookup [("u", ⟨⟨false, ["MALWARE"], none, none⟩, 0⟩)] (get_cache_key "u") =
        some ⟨⟨false, ["MALWARE"], none, none⟩, 0⟩) ∧
    ((7200 : Int) - (0 : Int) > 3600) ∧
    (check_safe_browsing true [("u", ⟨⟨false, ["MALWARE"], none, none⟩, 0⟩)] 7200
        (.resp 200 ["SOCIAL_ENGINEERING"]) "u" =
      check_sb_fresh [("u", ⟨⟨false, ["MALWARE"], none, none⟩, 0⟩)] 7200
        (.resp 200 ["SOCIAL_ENGINEERING"]) (get_cache_key "u") ∧
    (check_safe_browsing true [("u", ⟨⟨false, ["MALWARE"], none, none⟩, 0⟩)] 7200
        (.resp 200 ["SOCIAL_ENGINEERING"]) "u").api_called = true ∧
    (∀ ts, SBApi.resp 200 ["SOCIAL_ENGINEERING"] = SBApi.resp 200 ts →
      cache_lookup (check_safe_browsing true [("u", ⟨⟨false, ["MALWARE"], none, none⟩, 0⟩)]
          7200 (.resp 200 ["SOCIAL_ENGINEERING"]) "u").cache (get_cache_key "u") =
        some { safe_browsing := (check_safe_browsing true
                 [("u", ⟨⟨false, ["MALWARE"], none, none⟩, 0⟩)] 7200
                 (.resp 200 ["SOCIAL_ENGINEERING"]) "u").result,
               timestamp := 7200 }) ∧
    (∀ msg, SBApi.resp 200 ["SOCIAL_ENGINEERING"] = SBApi.raises msg →
      (check_safe_browsing true [("u", ⟨⟨false, ["MALWARE"], none, none⟩, 0⟩)] 7200
          (.resp 200 ["SOCIAL_ENGINEERING"]) "u").cache =
        [("u", ⟨⟨false, ["MALWARE"], none, none⟩, 0⟩)]) ∧
    (∀ code ts, SBApi.resp 200 ["SOCIAL_ENGINEERING"] = SBApi.resp code ts → code ≠ 200 →
      (check_safe_browsing true [("u", ⟨⟨false, ["MALWARE"], none, none⟩, 0⟩)] 7200
          (.resp 200 ["SOCIAL_ENGINEERING"]) "u").cache =
        [("u", ⟨⟨false, ["MALWARE"], none, none⟩, 0⟩)])) :=
  ⟨by decide, by decide,
   claim_c6 [("u", ⟨⟨false, ["MALWARE"], none, none⟩, 0⟩)] 7200
     (.resp 200 ["SOCIAL_ENGINEERING"]) "u" ⟨⟨false, ["MALWARE"], none, none⟩, 0⟩
     (by decide) (by decide)⟩

/-- C6, counterexample to the claim as stated: a stale entry (two hours old)
does trigger a fresh API lookup, but when that lookup raises, nothing is
stored — the cache still holds only the old entry with its old timestamp, so
the stale entry is not replaced by a result with a new timestamp. -/
theorem claim_c6_counterexample :
    (cache_lookup [("u", ⟨⟨false, ["MALWARE"], none, none⟩, 0⟩)] (get_cache_key "u") =
        some ⟨⟨false, ["MALWARE"], none, none⟩, 0⟩) ∧
    ((7200 : Int) - (0 : Int) > 3600) ∧
    (check_safe_browsing true [("u", ⟨⟨false, ["MALWARE"], none, none⟩, 0⟩)] 7200
        (.raises "connection reset") "u").api_called = true ∧
    (check_safe_browsing true [("u", ⟨⟨false, ["MALWARE"], none, none⟩, 0⟩)] 7200
        (.raises "connection reset") "u").cache =
      [("u", ⟨⟨false, ["MALWARE"], none, none⟩, 0⟩)] := by
  refine ⟨by decide, by decide, by decide, by decide⟩

/-- Closed form of the zero-filling loop: filling from `c` to `t` with
`t - c = n` lists the days `c, c+1, ..., c+n` in order, each paired with its
dictionary count. -/
theorem fill_timeline_eq (tl : Int → Nat) :
    ∀ (n : Nat) (c t : Int), t - c = n →
      fill_timeline tl c t =
        (List.range (n + 1)).map
          (fun i : Nat => (c + (i : Int), tl (c + (i : Int)))) := by
  intro n
  induction n with
  | zero =>
      intro c t h
      rw [fill_timeline, if_pos (by omega : c ≤ t)]
      rw [fill_timeline, if_neg (by omega : ¬(c + 1 ≤ t))]
      simp [List.range_succ]
  | succ n ih =>
      intro c t h
      rw [fill_timeline, if_pos (by omega : c ≤ t)]
      rw [ih (c + 1) t (by omega)]
      conv_rhs => rw [List.range_succ_eq_map]
      rw [List.map_cons, List.map_map]
      congr 1
      · simp
      · apply List.map_congr_left
        intro i _
        have hcast : c + (((i + 1 : Nat)) : Int) = c + 1 + (i : Int) := by
          push_cast
          ring
        simp only [Function.comp_apply, Nat.succ_eq_add_one, hcast]

/-- C3: for every day window and every list of loaded scan timestamps inside
that window, the timeline has exactly days+1 entries, one per calendar date
from the cutoff date through today inclusive, each date appearing once, and
each entry counting exactly the scans falling on its date (0 when none
do). -/
theorem claim_c3 (days : Nat) (scans : List DT) (now : DT)
    (h1 : 1 ≤ days) (h2 : days ≤ 365)
    (h3 : ∀ s ∈ scans, DT.le ⟨now.day - (days : Int), now.sec⟩ s ∧ DT.le s now) :
    (get_scans_timeline scans now days).length = days + 1 ∧
    ((get_scans_timeline scans now days).map Prod.fst).Nodup ∧
    ∀ i : Nat, ∀ hi : i < (get_scans_timeline scans now days).length,
      (get_scans_timeline scans now days).get ⟨i, hi⟩ =
        (now.day - (days : Int) + i,
          scans.countP (fun s => s.day == now.day - (days : Int) + i)) := by
  have key : get_scans_timeline scans now days =
      (List.range (days + 1)).map (fun i : Nat =>
        (now.day - (days : Int) + (i : Int),
          scans.countP (fun s => s.day == now.day - (days : Int) + (i : Int)))) := by
    show fill_timeline (fun d => scans.countP (fun s => s.day == d))
        (now.day - (days : Int)) now.day = _
    exact fill_timeline_eq _ days _ _ (by omega)
  refine ⟨?_, ?_, ?_⟩
  · rw [key]
    simp
  · rw [key, List.map_map]
    have hinj : Function.Injective
        (fun i : Nat => now.day - (days : Int) + i) := by
      intro a b hab
      simp only at hab
      omega
    have : (Prod.fst ∘ fun i : Nat =>
        ((now.day - (days : Int) + i : Int),
          scans.countP (fun s => s.day == now.day - (days : Int) + i))) =
        fun i : Nat => now.day - (days : Int) + i := rfl
    rw [this]
    exact (List.nodup_range _).map hinj
  · intro i hi
    have hg := List.get_of_eq key ⟨i, hi⟩
    rw [hg]
    simp only [List.get_eq_getElem, Fin.coe_cast, List.getElem_map, List.getElem_range]

/-- Witness for C3: a two-day window over a single scan falling on the
middle day. -/
theorem claim_c3_witness :
    (1 ≤ 2) ∧ (2 ≤ 365) ∧
    ((get_scans_timeline [⟨4, 0⟩] ⟨5, 100⟩ 2).length = 2 + 1 ∧
      ((get_scans_timeline [⟨4, 0⟩] ⟨5, 100⟩ 2).map Prod.fst).Nodup ∧
      ∀ i : Nat, ∀ hi : i < (get_scans_timeline [⟨4, 0⟩] ⟨5, 100⟩ 2).length,
        (get_scans_timeline [⟨4, 0⟩] ⟨5, 100⟩ 2).get ⟨i, hi⟩ =
          ((5 : Int) - (2 : Nat) + i,
            ([(⟨4, 0⟩ : DT)]).countP (fun s => s.day == (5 : Int) - (2 : Nat) + i))) :=
  ⟨by decide, by decide,
   claim_c3 2 [⟨4, 0⟩] ⟨5, 100⟩ (by decide) (by decide)
     (by
       intro s hs
       simp only [List.mem_singleton] at hs
       subst hs
       exact ⟨Or.inl (by norm_num), Or.inl (by norm_num)⟩)⟩

/-- Membership in a stable insertion is membership in the inserted element
or the original list. -/
theorem mem_insert_desc {x y : String × Nat} {l : List (String × Nat)} :
    y ∈ insert_desc x l ↔ y = x ∨ y ∈ l := by
  induction l with
  | nil => simp [insert_desc]
  | cons z zs ih =>
      by_cases h : z.2 < x.2
      · simp [insert_desc, h]
      · simp only [insert_desc, h, if_false, List.mem_cons, ih]
        tauto

/-- Stable insertion preserves the descending-count ordering. -/
theorem pairwise_insert_desc {x : String × Nat} {l : List (String × Nat)}
    (h : l.Pairwise (fun a b => b.2 ≤ a.2)) :
    (insert_desc x l).Pairwise (fun a b => b.2 ≤ a.2) := by
  induction l with
  | nil => simp [insert_desc]
  | cons y ys ih =>
      rcases List.pairwise_cons.mp h with ⟨hy, hys⟩
      by_cases hc : y.2 < x.2
      · simp only [insert_desc, hc, if_true]
        refine List.pairwise_cons.mpr ⟨?_, h⟩
        intro b hb
        rcases List.mem_cons.mp hb with hb | hb
        · subst hb
          omega
        · have := hy b hb
          omega
      · simp only [insert_desc, hc, if_false]
        refine List.pairwise_cons.mpr ⟨?_, ih hys⟩
        intro b hb
        rcases mem_insert_desc.mp hb with hb | hb
        · subst hb
          omega
        · exact hy b hb

/-- Every intermediate state of the insertion sort is descending, hence so
is its output. -/
theorem pairwise_py_sorted_aux :
    ∀ (l acc : List (String × Nat)), acc.Pairwise (fun a b => b.2 ≤ a.2) →
      (l.foldl (fun a x => insert_desc x a) acc).Pairwise (fun a b => b.2 ≤ a.2) := by
  intro l
  induction l with
  | nil => intro acc hacc; simpa using hacc
  | cons x xs ih =>
      intro acc hacc
      exact ih (insert_desc x acc) (pairwise_insert_desc hacc)

/-- The sort output is ordered by descending count. -/
theorem pairwise_py_sorted (l : List (String × Nat)) :
    (py_sorted_desc l).Pairwise (fun a b => b.2 ≤ a.2) :=
  pairwise_py_sorted_aux l [] (List.Pairwise.nil)

/-- In a descending list headed by an element with count below `c`, no
element has count `c`. -/
theorem filter_eq_nil_of_head_lt {c : Nat} {y : String × Nat}
    {ys : List (String × Nat)}
    (h : (y :: ys).Pairwise (fun a b => b.2 ≤ a.2)) (hy : y.2 < c) :
    (y :: ys).filter (fun p => p.2 == c) = [] := by
  rw [List.filter_eq_nil_iff]
  intro a ha
  rcases List.mem_cons.mp ha with ha | ha
  · subst ha
    simp only [beq_iff_eq]
    omega
  · have := (List.pairwise_cons.mp h).1 a ha
    simp only [beq_iff_eq]
    omega

/-- Stability of one insertion: among the elements of any one count class,
the inserted element lands last. -/
theorem filter_insert_desc {x : String × Nat} {l : List (String × Nat)} {c : Nat}
    (h : l.Pairwise (fun a b => b.2 ≤ a.2)) :
    (insert_desc x l).filter (fun p => p.2 == c) =
      if x.2 == c then l.filter (fun p => p.2 == c) ++ [x]
      else l.filter (fun p => p.2 == c) := by
  induction l with
  | nil =>
      simp only [insert_desc, List.filter_cons, List.filter_nil]
      by_cases hx : x.2 == c
      · simp [hx]
      · simp [hx]
  | cons y ys ih =>
      rcases List.pairwise_cons.mp h with ⟨hy, hys⟩
      by_cases hc : y.2 < x.2
      · simp only [insert_desc, hc, if_true]
        by_cases hx : x.2 == c
        · have hxc : x.2 = c := by simpa using hx
          have hnil : (y :: ys).filter (fun p => p.2 == c) = [] :=
            filter_eq_nil_of_head_lt h (by omega)
          simp [List.filter_cons, hx, hnil]
        · simp [List.filter_cons, hx]
      · simp only [insert_desc, hc, if_false]
        rw [List.filter_cons, ih hys, List.filter_cons]
        by_cases hyc : y.2 == c
        · by_cases hx : x.2 == c
          · simp [hyc, hx]
          · simp [hyc, hx]
        · by_cases hx : x.2 == c
          · simp [hyc, hx]
          · simp [hyc, hx]

/-- Stability of the whole sort: each count class of the output lists
exactly the input elements of that count, in input order. -/
theorem filter_py_sorted_aux {c : Nat} :
    ∀ (l acc : List (String × Nat)), acc.Pairwise (fun a b => b.2 ≤ a.2) →
      (l.foldl (fun a x => insert_desc x a) acc).filter (fun p => p.2 == c) =
        acc.filter (fun p => p.2 == c) ++ l.filter (fun p => p.2 == c) := by
  intro l
  induction l with
  | nil => intro acc hacc; simp
  | cons x xs ih =>
      intro acc hacc
      rw [List.foldl_cons, ih (insert_desc x acc) (pairwise_insert_desc hacc),
        filter_insert_desc hacc, List.filter_cons]
      by_cases hx : x.2 == c
      · simp [hx]
      · simp [hx]

/-- The sort permutes each count class onto itself, in order. -/
theorem filter_py_sorted (l : List (String × Nat)) (c : Nat) :
    (py_sorted_desc l).filter (fun p => p.2 == c) = l.filter (fun p => p.2 == c) := by
  have := filter_py_sorted_aux (c := c) l [] (List.Pairwise.nil)
  simpa [py_sorted_desc] using this

/-- C4: the top-10 location and country lists hold at most ten entries,
are sorted by descending count, and within any one count value list the
locations/countries in their first-encountered order (each count class of
the output is a prefix of the corresponding count class of the
insertion-ordered counting dictionary). -/
theorem claim_c4 (scans : List AScan) :
    ((top_locations scans).length ≤ 10 ∧
      (top_locations scans).Pairwise (fun a b => b.2 ≤ a.2) ∧
      ∀ c : Nat, (top_locations scans).filter (fun p => p.2 == c) <+:
        (counts_of (location_keys scans)).filter (fun p => p.2 == c)) ∧
    ((top_countries scans).length ≤ 10 ∧
      (top_countries scans).Pairwise (fun a b => b.2 ≤ a.2) ∧
      ∀ c : Nat, (top_countries scans).filter (fun p => p.2 == c) <+:
        (counts_of (country_keys scans)).filter (fun p => p.2 == c)) := by
  constructor
  · refine ⟨?_, ?_, ?_⟩
    · simp [top_locations, List.length_take]
    · exact List.Pairwise.sublist (List.take_sublist _ _) (pairwise_py_sorted _)
    · intro c
      have hpre : (top_locations scans).filter (fun p => p.2 == c) <+:
          (py_sorted_desc (counts_of (location_keys scans))).filter (fun p => p.2 == c) :=
        List.IsPrefix.filter _ (List.take_prefix _ _)
      rwa [filter_py_sorted] at hpre
  · refine ⟨?_, ?_, ?_⟩
    · simp [top_countries, List.length_take]
    · exact List.Pairwise.sublist (List.take_sublist _ _) (pairwise_py_sorted _)
    · intro c
      have hpre : (top_countries scans).filter (fun p => p.2 == c) <+:
          (py_sorted_desc (counts_of (country_keys scans))).filter (fun p => p.2 == c) :=
        List.IsPrefix.filter _ (List.take_prefix _ _)
      rwa [filter_py_sorted] at hpre

/-- Reading a counting dictionary below one head entry. -/
theorem count_lookup_cons (a : String) (n : Nat) (l : List (String × Nat)) (q : String) :
    count_lookup ((a, n) :: l) q =
      if (a == q) = true then n else count_lookup l q := by
  by_cases h : (a == q) = true
  · simp [count_lookup, List.find?_cons, h]
  · have hf : (a == q) = false := Bool.eq_false_iff.mpr h
    simp [count_lookup, List.find?_cons, hf]

/-- Reading a counting dictionary after one bump: the bumped key gains one,
every other key is unchanged. -/
theorem count_lookup_bump (m : List (String × Nat)) (k q : String) :
    count_lookup (bump m k) q =
      count_lookup m q + (if q = k then 1 else 0) := by
  induction m with
  | nil =>
      by_cases hq : q = k
      · subst hq
        simp [bump, count_lookup, List.find?_cons]
      · have hkq : (k == q) = false := by
          rw [beq_eq_false_iff_ne]
          exact Ne.symm hq
        simp [bump, count_lookup, List.find?_cons, hkq, hq]
  | cons p rest ih =>
      obtain ⟨a, n⟩ := p
      by_cases hak : (a == k) = true
      · have hak2 : a = k := by simpa using hak
        rw [show bump ((a, n) :: rest) k = (a, n + 1) :: rest from by simp [bump, hak]]
        rw [count_lookup_cons, count_lookup_cons]
        by_cases haq : (a == q) = true
        · have haq2 : a = q := by simpa using haq
          have hqk : q = k := by rw [← haq2, hak2]
          simp [haq, hqk, hak2]
        · have hqk : ¬ q = k := fun h => haq (by simp [hak2, h])
          simp [haq, hqk]
      · have hakf : (a == k) = false := Bool.eq_false_iff.mpr hak
        rw [show bump ((a, n) :: rest) k = (a, n) :: bump rest k from by simp [bump, hakf]]
        rw [count_lookup_cons, count_lookup_cons, ih]
        by_cases haq : (a == q) = true
        · have haq2 : a = q := by simpa using haq
          have hqk : ¬ q = k := fun h => hak (by simp [haq2, h])
          simp [haq, hqk]
        · simp [haq]

/-- Reading the counting dictionary built over a key sequence gives the
number of occurrences of the key. -/
theorem count_lookup_counts_of (keys : List String) (q : String) :
    count_lookup (counts_of keys) q = keys.count q := by
  suffices h : ∀ (ks : List String) (m : List (String × Nat)),
      count_lookup (ks.foldl bump m) q = count_lookup m q + ks.count q by
    have h2 := h keys []
    simpa [counts_of, count_lookup] using h2
  intro ks
  induction ks with
  | nil =>
      intro m
      simp
  | cons k₀ ks₀ ih =>
      intro m
      rw [List.foldl_cons, ih (bump m k₀), count_lookup_bump, List.count_cons]
      by_cases hqk : q = k₀
      · simp [hqk]
        omega
      · have hf : (k₀ == q) = false := by
          rw [beq_eq_false_iff_ne]
          exact Ne.symm hqk
        simp [hqk, hf]

/-- Under the token-existence hypothesis, the exception-threaded grouping
loop completes and is the pure fold of bumps over the token sequence. -/
theorem field_counts_ok (get : AScan → Option String) :
    ∀ (scans : List AScan) (m : List (String × Nat)),
      (∀ s ∈ scans, pyTruthy (get s) = true →
        (first_token ((get s).getD "")).isSome = true) →
      List.foldlM (field_step get) m scans =
        Except.ok ((scans.filterMap (fun s =>
          if pyTruthy (get s) then first_token ((get s).getD "") else none)).foldl
            bump m) := by
  intro scans
  induction scans with
  | nil =>
      intro m _
      rfl
  | cons s ss ih =>
      intro m h
      rw [List.foldlM_cons]
      by_cases hp : pyTruthy (get s) = true
      · obtain ⟨t, ht⟩ :=
          Option.isSome_iff_exists.mp (h s (List.mem_cons_self s ss) hp)
        rw [show field_step get m s = Except.ok (bump m t) from by
          simp [field_step, hp, ht]]
        show List.foldlM (field_step get) (bump m t) ss = _
        rw [ih (bump m t) (fun s₂ hs₂ => h s₂ (List.mem_cons_of_mem _ hs₂))]
        simp [List.filterMap_cons, hp, ht]
      · have hpf : pyTruthy (get s) = false := Bool.eq_false_iff.mpr hp
        rw [show field_step get m s = Except.ok m from by simp [field_step, hpf]]
        show List.foldlM (field_step get) m ss = _
        rw [ih m (fun s₂ hs₂ => h s₂ (List.mem_cons_of_mem _ hs₂))]
        simp [List.filterMap_cons, hpf]

/-- The token sequence contains a key as many times as there are scans whose
truthy field starts with that token. -/
theorem keys_count_eq_countP (get : AScan → Option String) (scans : List AScan)
    (k : String) :
    (scans.filterMap (fun s =>
      if pyTruthy (get s) then first_token ((get s).getD "") else none)).count k =
    scans.countP (fun s =>
      pyTruthy (get s) && (first_token ((get s).getD "") == some k)) := by
  induction scans with
  | nil => simp
  | cons s ss ih =>
      rw [List.filterMap_cons, List.countP_cons]
      by_cases hp : pyTruthy (get s) = true
      · cases hft : first_token ((get s).getD "") with
        | none => simp [hp, hft, ih]
        | some t =>
            simp only [hp, if_true, hft]
            rw [List.count_cons, ih]
            by_cases htk : t = k
            · simp [hp, hft, htk]
            · simp [hp, hft, htk]
      · have hpf : pyTruthy (get s) = false := Bool.eq_false_iff.mpr hp
        simp [hpf, ih]

/-- C8, counterexample to the claim as stated: a browser field holding the
non-empty string of a single blank is truthy, but has no whitespace token,
so the grouping loop raises `IndexError` instead of grouping the scan. -/
theorem claim_c8_counterexample :
    ((" " : String).isEmpty = false) ∧
    browser_counts [{ browser := some " " }] =
      Except.error "IndexError: list index out of range" := by
  constructor
  · rfl
  · rfl

/-- C8 as amended: whenever every truthy browser / OS field contains at
least one non-whitespace character (so `split()` is non-empty), the grouping
loops complete and count each scan under the first whitespace-delimited
token of its field; a truthy field with no such character instead raises
`IndexError`. -/
theorem claim_c8 (scans : List AScan)
    (hb : ∀ s ∈ scans, pyTruthy s.browser = true →
      (first_token (s.browser.getD "")).isSome = true)
    (ho : ∀ s ∈ scans, pyTruthy s.os = true →
      (first_token (s.os.getD "")).isSome = true) :
    (∃ m, browser_counts scans = Except.ok m ∧
      ∀ k, count_lookup m k = scans.countP
        (fun s => pyTruthy s.browser && (first_token (s.browser.getD "") == some k))) ∧
    (∃ m, os_counts scans = Except.ok m ∧
      ∀ k, count_lookup m k = scans.countP
        (fun s => pyTruthy s.os && (first_token (s.os.getD "") == some k))) := by
  constructor
  · refine ⟨_, field_counts_ok (fun s => s.browser) scans [] hb, ?_⟩
    intro k
    rw [show ((scans.filterMap (fun s =>
        if pyTruthy s.browser then first_token (s.browser.getD "") else none)).foldl
          bump []) =
      counts_of (scans.filterMap (fun s =>
        if pyTruthy s.browser then first_token (s.browser.getD "") else none)) from rfl]
    rw [count_lookup_counts_of, keys_count_eq_countP (fun s => s.browser)]
  · refine ⟨_, field_counts_ok (fun s => s.os) scans [] ho, ?_⟩
    intro k
    rw [show ((scans.filterMap (fun s =>
        if pyTruthy s.os then first_token (s.os.getD "") else none)).foldl bump []) =
      counts_of (scans.filterMap (fun s =>
        if pyTruthy s.os then first_token (s.os.getD "") else none)) from rfl]
    rw [count_lookup_counts_of, keys_count_eq_countP (fun s => s.os)]

/-- Witness for C8 on two concrete scans sharing a browser family. -/
theorem claim_c8_witness :
    (∃ m, browser_counts [{ browser := some "Chrome 120.0", os := some "Windows 10" },
        { browser := some "Chrome 119.0", os := some "Android 14" }] = Except.ok m ∧
      ∀ k, count_lookup m k =
        List.countP (fun s : AScan => pyTruthy s.browser &&
            (first_token (s.browser.getD "") == some k))
          [{ browser := some "Chrome 120.0", os := some "Windows 10" },
           { browser := some "Chrome 119.0", os := some "Android 14" }]) ∧
    (∃ m, os_counts [{ browser := some "Chrome 120.0", os := some "Windows 10" },
        { browser := some "Chrome 119.0", os := some "Android 14" }] = Except.ok m ∧
      ∀ k, count_lookup m k =
        List.countP (fun s : AScan => pyTruthy s.os &&
            (first_token (s.os.getD "") == some k))
          [{ browser := some "Chrome 120.0", os := some "Windows 10" },
           { browser := some "Chrome 119.0", os := some "Android 14" }]) :=
  claim_c8 [{ browser := some "Chrome 120.0", os := some "Windows 10" },
            { browser := some "Chrome 119.0", os := some "Android 14" }]
    (by decide) (by decide)

/-- C7: when the scanned URL exists and its counter equals its number of
scan records, `log_scan` commits — in one transaction — exactly one appended
scan row for that URL together with a counter increment of exactly one, so
afterwards the counter again equals the number of scan records for the
link. -/
theorem claim_c7 (st : DBState) (url_id ip_address user_agent : String)
    (referrer : Option String) (now : DT) (uao : UAOutcome) (geo : GeoEnv) (u : URLRow)
    (hu : st.urls.filter (fun v => v.url_id == url_id) = [u])
    (hinv : u.total_scans = (st.scans.filter (fun s => s.url_id == url_id)).length) :
    ∃ st₂ scan, log_scan st url_id ip_address user_agent referrer now uao geo =
        Except.ok (st₂, scan) ∧
      st₂.scans = st.scans ++ [scan] ∧
      scan.url_id = url_id ∧
      st₂.urls.filter (fun v => v.url_id == url_id) =
        [{ u with total_scans := u.total_scans + 1 }] ∧
      (∀ v ∈ st.urls, (v.url_id == url_id) = false → v ∈ st₂.urls) ∧
      ∀ u₂, st₂.urls.filter (fun v => v.url_id == url_id) = [u₂] →
        u₂.total_scans = (st₂.scans.filter (fun s => s.url_id == url_id)).length := by
  have hu_mem : u ∈ st.urls.filter (fun v => v.url_id == url_id) := by
    rw [hu]
    exact List.mem_singleton.mpr rfl
  have hu_pred : (u.url_id == url_id) = true := (List.mem_filter.mp hu_mem).2
  have hcomm : ∀ v : URLRow,
      ((if v.url_id == url_id then { v with total_scans := v.total_scans + 1 }
        else v).url_id == url_id) = (v.url_id == url_id) := by
    intro v
    by_cases hv : (v.url_id == url_id) = true
    · simp [hv]
    · have hvf : (v.url_id == url_id) = false := Bool.eq_false_iff.mpr hv
      simp [hvf]
  have hfiltermap : (st.urls.map (fun v =>
      if v.url_id == url_id then { v with total_scans := v.total_scans + 1 }
      else v)).filter (fun v => v.url_id == url_id) =
        [{ u with total_scans := u.total_scans + 1 }] := by
    rw [List.filter_map]
    have hpf : ((fun v : URLRow => v.url_id == url_id) ∘ fun v =>
        if v.url_id == url_id then { v with total_scans := v.total_scans + 1 }
        else v) = fun v : URLRow => v.url_id == url_id := by
      funext v
      exact hcomm v
    rw [hpf, hu, List.map_singleton, if_pos hu_pred]
  simp only [log_scan]
  rw [hu]
  refine ⟨_, _, rfl, rfl, rfl, hfiltermap, ?_, ?_⟩
  · intro v hv hvf
    refine List.mem_map.mpr ⟨v, hv, ?_⟩
    simp [hvf]
  · intro u₂ hu₂
    rw [hfiltermap] at hu₂
    injection hu₂ with h1 _
    subst h1
    show u.total_scans + 1 = _
    rw [List.filter_append]
    simp [List.filter_cons, hinv]

/-- Witness for C7: a one-link database with no scans yet, receiving its
first scan. -/
theorem claim_c7_witness :
    ∃ st₂ scan,
      log_scan demo_db "u1" "8.8.8.8" "Mozilla/5.0" none ⟨0, 0⟩ (.parsed {})
          ⟨.noReader, .raises "down"⟩ = Except.ok (st₂, scan) ∧
      st₂.scans = demo_db.scans ++ [scan] ∧
      scan.url_id = "u1" ∧
      st₂.urls.filter (fun v => v.url_id == "u1") =
        [{ demo_url with total_scans := demo_url.total_scans + 1 }] ∧
      (∀ v ∈ demo_db.urls, (v.url_id == "u1") = false → v ∈ st₂.urls) ∧
      ∀ u₂, st₂.urls.filter (fun v => v.url_id == "u1") = [u₂] →
        u₂.total_scans = (st₂.scans.filter (fun s => s.url_id == "u1")).length :=
  claim_c7 demo_db "u1" "8.8.8.8" "Mozilla/5.0" none ⟨0, 0⟩ (.parsed {})
    ⟨.noReader, .raises "down"⟩ demo_url (by decide) (by decide)

/-- C9: deleting an owned link soft-deletes it — the stored row keeps its
identity, short code, destination, counters, expiration, customization and
timestamps except that `is_active` becomes false and `updated_at` is
refreshed; no row is removed and the scan records are untouched. -/
theorem claim_c9 (st : DBState) (sc uid : String) (now : DT) (u : URLRow)
    (hu : st.urls.filter (fun v => v.short_code == sc && v.user_id == some uid) = [u]) :
    ∃ st₂, delete_qr_code st sc uid now = Except.ok st₂ ∧
      st₂.scans = st.scans ∧
      st₂.urls.length = st.urls.length ∧
      st₂.urls.filter (fun v => v.short_code == sc && v.user_id == some uid) =
        [{ u with is_active := false, updated_at := now }] ∧
      ({ u with is_active := false, updated_at := now } : URLRow).url_id = u.url_id ∧
      ({ u with is_active := false, updated_at := now } : URLRow).user_id = u.user_id ∧
      ({ u with is_active := false, updated_at := now } : URLRow).short_code =
        u.short_code ∧
      ({ u with is_active := false, updated_at := now } : URLRow).original_url =
        u.original_url ∧
      ({ u with is_active := false, updated_at := now } : URLRow).custom_title =
        u.custom_title ∧
      ({ u with is_active := false, updated_at := now } : URLRow).show_preview =
        u.show_preview ∧
      ({ u with is_active := false, updated_at := now } : URLRow).analytics_enabled =
        u.analytics_enabled ∧
      ({ u with is_active := false, updated_at := now } : URLRow).password_hash =
        u.password_hash ∧
      ({ u with is_active := false, updated_at := now } : URLRow).expiration_date =
        u.expiration_date ∧
      ({ u with is_active := false, updated_at := now } : URLRow).qr_color = u.qr_color ∧
      ({ u with is_active := false, updated_at := now } : URLRow).qr_background =
        u.qr_background ∧
      ({ u with is_active := false, updated_at := now } : URLRow).total_scans =
        u.total_scans ∧
      ({ u with is_active := false, updated_at := now } : URLRow).created_at =
        u.created_at ∧
      ({ u with is_active := false, updated_at := now } : URLRow).is_active = false ∧
      ({ u with is_active := false, updated_at := now } : URLRow).updated_at = now ∧
      (∀ v ∈ st.urls, ((v.short_code == sc && v.user_id == some uid) = false) →
        v ∈ st₂.urls) := by
  have hu_mem : u ∈ st.urls.filter
      (fun v => v.short_code == sc && v.user_id == some uid) := by
    rw [hu]
    exact List.mem_singleton.mpr rfl
  have hu_pred : (u.short_code == sc && u.user_id == some uid) = true :=
    (List.mem_filter.mp hu_mem).2
  have hcomm : ∀ v : URLRow,
      ((if v.short_code == sc && v.user_id == some uid then
          { v with is_active := false, updated_at := now }
        else v).short_code == sc &&
       (if v.short_code == sc && v.user_id == some uid then
          { v with is_active := false, updated_at := now }
        else v).user_id == some uid) =
      (v.short_code == sc && v.user_id == some uid) := by
    intro v
    by_cases hv : (v.short_code == sc && v.user_id == some uid) = true
    · simp [hv]
    · have hvf : (v.short_code == sc && v.user_id == some uid) = false :=
        Bool.eq_false_iff.mpr hv
      simp [hvf]
  have hfiltermap : (st.urls.map (fun v =>
      if v.short_code == sc && v.user_id == some uid then
        { v with is_active := false, updated_at := now }
      else v)).filter (fun v => v.short_code == sc && v.user_id == some uid) =
        [{ u with is_active := false, updated_at := now }] := by
    rw [List.filter_map]
    have hpf : ((fun v : URLRow => v.short_code == sc && v.user_id == some uid) ∘
        fun v => if v.short_code == sc && v.user_id == some uid then
          { v with is_active := false, updated_at := now }
        else v) =
        fun v : URLRow => v.short_code == sc && v.user_id == some uid := by
      funext v
      exact hcomm v
    rw [hpf, hu, List.map_singleton, if_pos hu_pred]
  unfold delete_qr_code
  rw [hu]
  refine ⟨_, rfl, rfl, by simp, hfiltermap, ?_⟩
  refine ⟨rfl, rfl, rfl, rfl, rfl, rfl, rfl, rfl, rfl, rfl, rfl, rfl, rfl, rfl, rfl, ?_⟩
  intro v hv hvf
  refine List.mem_map.mpr ⟨v, hv, ?_⟩
  simp [hvf]

/-- Witness for C9: a one-link database owned by the requesting user. -/
theorem claim_c9_witness :
    ∃ st₂, delete_qr_code demo_db "abc123" "owner" ⟨9, 30⟩ = Except.ok st₂ ∧
      st₂.scans = demo_db.scans ∧
      st₂.urls.length = demo_db.urls.length ∧
      st₂.urls.filter (fun v => v.short_code == "abc123" && v.user_id == some "owner") =
        [{ demo_url with is_active := false, updated_at := (⟨9, 30⟩ : DT) }] ∧
      (({ demo_url with is_active := false, updated_at := (⟨9, 30⟩ : DT) } : URLRow)).url_id = demo_url.url_id ∧
      (({ demo_url with is_active := false, updated_at := (⟨9, 30⟩ : DT) } : URLRow)).user_id = demo_url.user_id ∧
      (({ demo_url with is_active := false, updated_at := (⟨9, 30⟩ : DT) } : URLRow)).short_code = demo_url.short_code ∧
      (({ demo_url with is_active := false, updated_at := (⟨9, 30⟩ : DT) } : URLRow)).original_url = demo_url.original_url ∧
      (({ demo_url with is_active := false, updated_at := (⟨9, 30⟩ : DT) } : URLRow)).custom_title = demo_url.custom_title ∧
      (({ demo_url with is_active := false, updated_at := (⟨9, 30⟩ : DT) } : URLRow)).show_preview = demo_url.show_preview ∧
      (({ demo_url with is_active := false, updated_at := (⟨9, 30⟩ : DT) } : URLRow)).analytics_enabled = demo_url.analytics_enabled ∧
      (({ demo_url with is_active := false, updated_at := (⟨9, 30⟩ : DT) } : URLRow)).password_hash = demo_url.password_hash ∧
      (({ demo_url with is_active := false, updated_at := (⟨9, 30⟩ : DT) } : URLRow)).expiration_date = demo_url.expiration_date ∧
      (({ demo_url with is_active := false, updated_at := (⟨9, 30⟩ : DT) } : URLRow)).qr_color = demo_url.qr_color ∧
      (({ demo_url with is_active := false, updated_at := (⟨9, 30⟩ : DT) } : URLRow)).qr_background = demo_url.qr_background ∧
      (({ demo_url with is_active := false, updated_at := (⟨9, 30⟩ : DT) } : URLRow)).total_scans = demo_url.total_scans ∧
      (({ demo_url with is_active := false, updated_at := (⟨9, 30⟩ : DT) } : URLRow)).created_at = demo_url.created_at ∧
      (({ demo_url with is_active := false, updated_at := (⟨9, 30⟩ : DT) } : URLRow)).is_active = false ∧
      (({ demo_url with is_active := false, updated_at := (⟨9, 30⟩ : DT) } : URLRow)).updated_at = (⟨9, 30⟩ : DT) ∧
      (∀ v ∈ demo_db.urls,
        ((v.short_code == "abc123" && v.user_id == some "owner") = false) →
          v ∈ st₂.urls) :=
  claim_c9 demo_db "abc123" "owner" ⟨9, 30⟩ demo_url (by decide)

end QRSecure
